import Mathlib

/-!
Verification development for the Savant emergency-response agent.

The definitions below are a shallow embedding of the Python sources:
`backend/voice_bridge_client.py`, `backend/conversation_manager.py`,
`backend/vision_processor.py`, `backend/database_manager.py`, and
`rag_preparation/data_pipeline.py`.  Python strings are modelled as Lean
`String`, Python `None`-able values as `Option`, raw bytes as `List Nat`,
dictionaries with string values as association lists, and every external
call (HTTP, LLM inference, TTS, LiveKit) as an oracle parameter describing
that call's outcome; a `try`/`except` block in the source becomes a `match`
on the oracle's `Except`/`Option` outcome.
-/

namespace Savant

/-! ## Python string primitives -/

/-- Whitespace characters recognised by Python `str.strip()` (ASCII subset
used by the embedding: space, tab, newline, carriage return, vertical tab,
form feed). -/
def pyIsSpace (c : Char) : Bool :=
  c == ' ' || c == '\t' || c == '\n' || c == '\r' || c == '\x0b' || c == '\x0c'

/-- Characters of Python `str.strip()`: drop leading and trailing whitespace. -/
def pyStripList (l : List Char) : List Char :=
  ((l.dropWhile pyIsSpace).reverse.dropWhile pyIsSpace).reverse

/-- Python `str.strip()`. -/
def pyStrip (s : String) : String :=
  ⟨pyStripList s.data⟩

/-- Decides whether `pre` is a prefix of `l` (character lists). -/
def listIsPre : List Char → List Char → Bool
  | [], _ => true
  | _ :: _, [] => false
  | a :: as, b :: bs => a == b && listIsPre as bs

/-- Python `s.startswith(pre)`. -/
def pyStartsWith (s pre : String) : Bool :=
  listIsPre pre.data s.data

/-- Decides whether `sub` occurs as a contiguous sublist of the second list. -/
def listHasSub (sub : List Char) : List Char → Bool
  | [] => listIsPre sub []
  | c :: rest => listIsPre sub (c :: rest) || listHasSub sub rest

/-- Python `sub in s` (substring containment). -/
def pyContains (s sub : String) : Bool :=
  listHasSub sub.data s.data

/-- Python `" ".join(l)` (here generalised over the separator). -/
def pyJoin (sep : String) : List String → String
  | [] => ""
  | [x] => x
  | x :: y :: xs => x ++ sep ++ pyJoin sep (y :: xs)

/-- Python `d.get(key, dflt)` on a string-valued dictionary modelled as an
association list (the dictionaries appearing in the sources have distinct
keys, so first-match lookup coincides with dictionary lookup). -/
def pyDictGet (d : List (String × String)) (key dflt : String) : String :=
  match d.find? (fun kv => kv.1 == key) with
  | some kv => kv.2
  | none => dflt

/-! ## voice_bridge_client.py — event normalization (EventRouter) -/

/-- Embedding of `VoiceBridgeClient._process_text_message`
(voice_bridge_client.py lines 77-81): if the text is non-empty and strips to
a non-empty string, and a message callback is registered, the text is handed
to `_safe_callback_run`; otherwise nothing happens.  The returned value is
the text delivered to the callback (`none` when no callback is invoked). -/
def processTextMessage (callbackSet : Bool) (text source : String) : Option String :=
  if text ≠ "" ∧ pyStrip text ≠ "" then
    if callbackSet then some text else none
  else none

/-- A LiveKit data packet as seen by `_on_data_received`: its topic, the
identity of the declaring participant (`rtc.DataPacket.participant`, which
the handler never reads), and the result of decoding its payload as UTF-8
(`none` models a payload whose decode raises, which every enclosing
`try`/`except` turns into a dropped event). -/
structure DataPacket where
  topic : String
  participantIdentity : Option String
  payload : Option String

/-- Embedding of `VoiceBridgeClient._on_data_received`
(voice_bridge_client.py lines 52-75).  `jsonGetText` is the oracle for the
statements `obj = json.loads(text); text = obj.get('text', text)`:
`some t` is normal completion yielding `t`, `none` is a raised exception,
which the inner bare `except: pass` turns into a fall-through to the
raw-text fallback path.  The result is the text delivered to the message
callback, `none` when no callback is invoked. -/
def onDataReceived (callbackSet : Bool) (jsonGetText : String → Option String)
    (pkt : DataPacket) : Option String :=
  match pkt.payload with
  | none => none
  | some text =>
    if pkt.topic = "lk.transcription" then
      if pyStartsWith text "\x7b" && pyContains text "text" then
        match jsonGetText text with
        | some t2 => processTextMessage callbackSet t2 "transcription_packet"
        | none => processTextMessage callbackSet text pkt.topic
      else
        processTextMessage callbackSet text "transcription_packet"
    else
      processTextMessage callbackSet text pkt.topic

/-- One element of a legacy transcription event's segment list; `text = none`
models a segment object without a `text` attribute (filtered out by the
`hasattr(seg, 'text')` check in the source). -/
structure TranscriptSegment where
  text : Option String

/-- The `transcription` argument of `_on_transcription_received`: either a
list of segment objects or some other structure, for which the source falls
back to `str(transcription)` (modelled by the string the conversion yields). -/
inductive TranscriptPayload where
  | segments : List TranscriptSegment → TranscriptPayload
  | other : String → TranscriptPayload

/-- Embedding of the segment-joining expression
`" ".join([seg.text for seg in transcription if hasattr(seg, 'text')])`
of `_on_transcription_received` (voice_bridge_client.py lines 103-107). -/
def transcriptionFullText : TranscriptPayload → String
  | .segments segs =>
    pyJoin " " ((segs.filter (fun s => s.text.isSome)).map (fun s => s.text.getD ""))
  | .other s => s

/-- Embedding of the guard `if participant and "agent-" in participant.identity`
of `_on_transcription_received` (voice_bridge_client.py line 97). -/
def agentFiltered (participant : Option String) : Bool :=
  match participant with
  | some pid => pyContains pid "agent-"
  | none => false

/-- Embedding of `VoiceBridgeClient._on_transcription_received`
(voice_bridge_client.py lines 93-114).  The result is the text delivered to
the message callback, `none` when no callback is invoked. -/
def onTranscriptionReceived (callbackSet : Bool) (participant : Option String)
    (tr : TranscriptPayload) : Option String :=
  if agentFiltered participant then none
  else
    let fullText := transcriptionFullText tr
    if pyStrip fullText ≠ "" then
      if callbackSet then some fullText else none
    else none

/-! ## voice_bridge_client.py — callback isolation -/

/-- Outcome of one invocation of the registered message callback: normal
completion or a raised exception carrying a message. -/
inductive CallbackOutcome where
  | ok : CallbackOutcome
  | exn : String → CallbackOutcome

/-- Embedding of `VoiceBridgeClient._safe_callback_run`
(voice_bridge_client.py lines 83-87): the callback is awaited inside
`try`/`except Exception`; an exception is logged (the returned `some` value
is the logged message) and never re-raised. -/
def safeCallbackRun (cb : String → CallbackOutcome) (text : String) : Option String :=
  match cb text with
  | .ok => none
  | .exn e => some e

/-- The inbound consumption loop delivering successive normalized utterance
texts, each through `safeCallbackRun`; the list of per-event logged errors
(one entry per event) is returned. -/
def inboundConsumeLoop (cb : String → CallbackOutcome) : List String → List (Option String)
  | [] => []
  | t :: rest => safeCallbackRun cb t :: inboundConsumeLoop cb rest

/-- Contrast semantics: the same loop without the `try`/`except` of
`_safe_callback_run`, where a raised exception propagates and terminates
the consumption of the remaining events. -/
def unprotectedConsumeLoop (cb : String → CallbackOutcome) :
    List String → Except String Nat
  | [] => .ok 0
  | t :: rest =>
    match cb t with
    | .exn e => .error e
    | .ok => (unprotectedConsumeLoop cb rest).map (· + 1)

/-! ## voice_bridge_client.py — token fetch and connection lifecycle -/

/-- The token service's successful response body
(`{livekit_url, token, room_name}`). -/
structure TokenData where
  livekitUrl : String
  token : String
  roomName : String

/-- Embedding of `VoiceBridgeClient.get_token` (voice_bridge_client.py lines
27-50).  `httpOutcome` is the oracle for the `requests.post` call,
`raise_for_status`, and JSON decoding: `.ok` yields the parsed body,
`.error` is any raised exception (caught by the enclosing `try`/`except`).
Returns the token data (`none` on any failure) together with the error
messages logged. -/
def getToken (apiKey : Option String) (httpOutcome : Except String TokenData) :
    Option TokenData × List String :=
  match apiKey with
  | none => (none, ["VOCAL_BRIDGE_KEY is missing."])
  | some _ =>
    match httpOutcome with
    | .ok td => (some td, [])
    | .error e => (none, ["Failed to get token: " ++ e])

/-- Observable effects of one call to `connect_and_stream`. -/
structure ConnectRun where
  tokenFetchAttempts : Nat
  connectCalled : Bool
  reconnectAttempts : Nat
  surfacedError : Option String
  closedAtEnd : Bool
  logs : List String

/-- Embedding of `VoiceBridgeClient.connect_and_stream`
(voice_bridge_client.py lines 225-272).  `get_token` is called exactly once;
if it yields no token the function returns (the `finally` block still runs
`close()`).  Otherwise `room.connect` is issued, whose outcome is the oracle
`connectOutcome`; a raised exception is caught by the outer
`except Exception` and logged.  On success the keep-alive loop runs until
the connection drops or the client is stopped, after which the `finally`
block closes the room.  No path retries the token fetch, calls `reconnect`,
or propagates an error to the caller. -/
def connectAndStream (apiKey : Option String) (httpOutcome : Except String TokenData)
    (connectOutcome : Except String Unit) : ConnectRun :=
  match getToken apiKey httpOutcome with
  | (none, logs) =>
    { tokenFetchAttempts := 1, connectCalled := false, reconnectAttempts := 0,
      surfacedError := none, closedAtEnd := true, logs := logs }
  | (some _, logs) =>
    match connectOutcome with
    | .error e =>
      { tokenFetchAttempts := 1, connectCalled := true, reconnectAttempts := 0,
        surfacedError := none, closedAtEnd := true,
        logs := logs ++ ["Connection Error: " ++ e] }
    | .ok _ =>
      { tokenFetchAttempts := 1, connectCalled := true, reconnectAttempts := 0,
        surfacedError := none, closedAtEnd := true, logs := logs }

/-- Embedding of `VoiceBridgeClient.reconnect` (voice_bridge_client.py line
274), whose entire body is `pass`: it performs no action. -/
def reconnect : Unit := ()

/-! ## vision_processor.py -/

/-- Embedding of `VisionProcessor.analyze_injury` (vision_processor.py lines
27-80).  `apiOutcome` is the oracle for the chat-completion call, the
markdown cleanup, and `json.loads`: `.ok` yields the parsed string-valued
JSON object, `.error` is any raised exception.  On failure the hard-coded
fallback dictionary of lines 76-80 is returned. -/
def analyzeInjury (apiOutcome : Except String (List (String × String))) :
    List (String × String) :=
  match apiOutcome with
  | .ok parsed => parsed
  | .error _ =>
    [("injury_type", "Unknown"),
     ("severity", "Unknown"),
     ("visual_overlay_text", "Analysis Failed - Check Connection")]

/-! ## conversation_manager.py / database_manager.py -/

/-- One entry of `ConversationManager.history`. -/
structure TurnRec where
  role : String
  content : String
  deriving DecidableEq

/-- One record inserted by `DatabaseManager.log_patient_state`
(database_manager.py lines 16-24); the timestamp is omitted from the
embedding. -/
structure DbRecord where
  heartRate : String
  injuryDetected : String
  actionsTaken : String
  deriving DecidableEq

/-- The mutable fields of `ConversationManager` and its voice bridge that
`process_input` can read: the conversation history, the protocol fields
(`active_protocol`, `current_step_id`), and whether `voice_bridge.room` and
`voice_bridge.source` are set. -/
structure ManagerState where
  history : List TurnRec
  activeProtocolId : Option String
  currentStepId : Option String
  roomConnected : Bool
  sourceActive : Bool
  deriving DecidableEq

/-- Observable outcome of one `process_input` call: the returned response
text, the resulting manager state, the records logged to the database, the
contexts published to the room, and the PCM buffers handed to `send_audio`. -/
structure TurnResult where
  response : String
  state : ManagerState
  dbRecords : List DbRecord
  publishedContext : List String
  audioSent : List (List Nat)
  deriving DecidableEq

/-- Python truthiness of the `image_bytes` argument
(`None` and `b""` are falsy). -/
def imgTruthy : Option (List Nat) → Bool
  | some bs => !bs.isEmpty
  | none => false

/-- The visual-context string built by `process_input`
(conversation_manager.py line 70). -/
def visualContextOf (injury severity : String) : String :=
  "[Visual Info: Found " ++ injury ++ ", Severity: " ++ severity ++ "]"

/-- Steps 1-2 of the image branch of `process_input` (conversation_manager.py
lines 65-70): when image bytes are supplied (and `self.vision` is set, which
`__init__` guarantees), the image is analyzed and the visual-context string
is built from the `injury` and `severity` entries of the analysis dictionary
(defaulting to "Unknown"); otherwise the context stays empty. -/
def visualContextFor (imageBytes : Option (List Nat))
    (visionApi : Except String (List (String × String))) : String :=
  if imgTruthy imageBytes then
    visualContextOf
      (pyDictGet (analyzeInjury visionApi) "injury" "Unknown")
      (pyDictGet (analyzeInjury visionApi) "severity" "Unknown")
  else ""

/-- The database logging of the image branch of `process_input`
(conversation_manager.py lines 73-78): exactly one record per analyzed image
(`self.db` is set by `__init__`), none otherwise. -/
def dbRecordsFor (imageBytes : Option (List Nat))
    (visionApi : Except String (List (String × String))) : List DbRecord :=
  if imgTruthy imageBytes then
    [{ heartRate := "--",
       injuryDetected := pyDictGet (analyzeInjury visionApi) "injury" "Unknown",
       actionsTaken := "Visual Analysis: "
         ++ pyDictGet (analyzeInjury visionApi) "severity" "Unknown" }]
  else []

/-- Step 2 of `process_input` (conversation_manager.py lines 81-83):
`final_input = user_text if user_text else ""`, extended by a space and the
visual context when the latter is non-empty. -/
def combinedInput (userText : Option String) (imageBytes : Option (List Nat))
    (visionApi : Except String (List (String × String))) : String :=
  let fi := userText.getD ""
  let vc := visualContextFor imageBytes visionApi
  if vc ≠ "" then fi ++ " " ++ vc else fi

/-- The history appends of `process_input` lines 56-60: a user turn with the
utterance when `user_text` is truthy, else an image marker when `image_bytes`
is truthy, else nothing. -/
def historyAfterUserTurn (hist : List TurnRec) (userText : Option String)
    (imageBytes : Option (List Nat)) : List TurnRec :=
  if userText.getD "" ≠ "" then
    hist ++ [{ role := "user", content := userText.getD "" }]
  else if imgTruthy imageBytes then
    hist ++ [{ role := "user", content := "📸 [Image Analysis]" }]
  else hist

/-- Embedding of `ConversationManager._speak_and_return`
(conversation_manager.py lines 28-37): append an assistant turn; if
`voice_bridge.source` is set, synthesize PCM via `generate_pcm` (whose
internal `try`/`except` makes its contract `Option` bytes, the oracle `tts`)
and hand a truthy result to `send_audio` (a no-op, line 276); finally return
the text.  Result: (returned text, new state, buffers sent to `send_audio`). -/
def speakAndReturn (tts : String → Option (List Nat)) (st : ManagerState)
    (text : String) : String × ManagerState × List (List Nat) :=
  (text,
   { st with history := st.history ++ [{ role := "assistant", content := text }] },
   if st.sourceActive then
     match tts text with
     | some pcm => if pcm.isEmpty then [] else [pcm]
     | none => []
   else [])

/-- Embedding of `ConversationManager.process_input` (conversation_manager.py
lines 46-104).  Oracles: `visionApi` for the NIM vision call inside
`analyze_injury`, `tts` for `generate_pcm`, and `publishOutcome` for the
`publish_data` call inside `publish_context` — whose failure is caught and
only logged (lines 290-291), hence it influences no field of the result.
When the combined input is empty the response is "Awaiting input."; otherwise
the combined input is published when the room is connected (line 93) and the
echo response of lines 102-104 is returned.  The protocol fields
`active_protocol` and `current_step_id` are never read or written. -/
def processInput (st : ManagerState) (userText : Option String)
    (imageBytes : Option (List Nat))
    (visionApi : Except String (List (String × String)))
    (tts : String → Option (List Nat))
    (publishOutcome : Except String Unit) : TurnResult :=
  let hist1 := historyAfterUserTurn st.history userText imageBytes
  let dbRecs := dbRecordsFor imageBytes visionApi
  let finalInput := combinedInput userText imageBytes visionApi
  if finalInput = "" then
    let r := speakAndReturn tts { st with history := hist1 } "Awaiting input."
    { response := r.1, state := r.2.1, dbRecords := dbRecs,
      publishedContext := [], audioSent := r.2.2 }
  else
    let published := if st.roomConnected then [finalInput] else []
    let r := speakAndReturn tts { st with history := hist1 }
      ("I heard you say: " ++ finalInput)
    { response := r.1, state := r.2.1, dbRecords := dbRecs,
      publishedContext := published, audioSent := r.2.2 }

/-! ## data_pipeline.py — placeholder protocol data -/

/-- One node of a protocol decision tree, as produced by
`get_placeholder_data` (data_pipeline.py lines 143-175); JSON keys a step may
omit are `Option`-valued. -/
structure ProtoStep where
  voice : String
  visualMode : Option Bool
  options : List (String × String)
  next : Option String
  deriving DecidableEq

/-- A protocol of the placeholder library. -/
structure Protocol where
  id : String
  name : String
  keywords : List String
  tree : List (String × ProtoStep)
  deriving DecidableEq

/-- The hemorrhage protocol's decision tree from `get_placeholder_data`
(data_pipeline.py lines 151-172), transcribed field by field. -/
def hemorrhageTree : List (String × ProtoStep) :=
  [("step_1",
    { voice := "Is blood spurting from the wound?", visualMode := none,
      options := [("yes", "step_tourniquet"), ("no", "step_pressure")],
      next := none }),
   ("step_tourniquet",
    { voice := "Place tourniquet 2 to 3 inches above the wound. Tighten until bleeding stops.",
      visualMode := some true, options := [], next := some "step_check_time" }),
   ("step_check_time",
    { voice := "Note the application time on the tourniquet.",
      visualMode := some false, options := [], next := none }),
   ("step_pressure",
    { voice := "Apply direct, steady pressure to the bleeding site.",
      visualMode := some true, options := [], next := none })]

/-- The placeholder protocol library of `get_placeholder_data`
(data_pipeline.py lines 143-175). -/
def placeholderProtocols : List Protocol :=
  [{ id := "hemorrhage", name := "Hemorrhage Control",
     keywords := ["bleeding", "blood", "leg", "hemorrhage", "arterial"],
     tree := hemorrhageTree }]

/-! ## Helper lemmas -/

lemma pyStripList_eq_nil_of_all_space (l : List Char)
    (h : ∀ c ∈ l, pyIsSpace c = true) : pyStripList l = [] := by
  have h1 : l.dropWhile pyIsSpace = [] := List.dropWhile_eq_nil_iff.mpr h
  unfold pyStripList
  rw [h1]
  rfl

lemma pyStrip_eq_empty_of_all_space (s : String)
    (h : ∀ c ∈ s.data, pyIsSpace c = true) : pyStrip s = "" := by
  unfold pyStrip
  rw [pyStripList_eq_nil_of_all_space s.data h]

lemma processTextMessage_none_of_strip_empty (cs : Bool) (t src : String)
    (h : pyStrip t = "") : processTextMessage cs t src = none := by
  simp [processTextMessage, h]

lemma brace_neq_space (c : Char) (hc : pyIsSpace c = true) :
    ('\x7b' == c) = false := by
  simp only [pyIsSpace, Bool.or_eq_true, beq_iff_eq] at hc
  rcases hc with ((((rfl | rfl) | rfl) | rfl) | rfl) | rfl <;> rfl

lemma pyStartsWith_brace_false_of_all_space (s : String)
    (h : ∀ c ∈ s.data, pyIsSpace c = true) : pyStartsWith s "\x7b" = false := by
  unfold pyStartsWith
  have hd : ("\x7b" : String).data = ['\x7b'] := rfl
  rw [hd]
  cases hs : s.data with
  | nil => rfl
  | cons c cs =>
    have hc : pyIsSpace c = true := h c (hs ▸ List.mem_cons_self c cs)
    simp [listIsPre, brace_neq_space c hc]

lemma onDataReceived_none_of_all_space (cs : Bool) (jget : String → Option String)
    (topic : String) (pident : Option String) (t : String)
    (h : ∀ c ∈ t.data, pyIsSpace c = true) :
    onDataReceived cs jget ⟨topic, pident, some t⟩ = none := by
  have hst : pyStrip t = "" := pyStrip_eq_empty_of_all_space t h
  have hbr : pyStartsWith t "\x7b" = false :=
    pyStartsWith_brace_false_of_all_space t h
  simp only [onDataReceived]
  by_cases ht : topic = "lk.transcription"
  · simp [ht, hbr, processTextMessage_none_of_strip_empty _ _ _ hst]
  · simp [ht, processTextMessage_none_of_strip_empty _ _ _ hst]

lemma inboundConsumeLoop_length (cb : String → CallbackOutcome)
    (texts : List String) :
    (inboundConsumeLoop cb texts).length = texts.length := by
  induction texts with
  | nil => rfl
  | cons t ts ih => simp [inboundConsumeLoop, ih]

lemma all_some_segments_texts (texts : List String) :
    ((texts.map (fun t => ({ text := some t } : TranscriptSegment))).filter
      (fun s => s.text.isSome)).map (fun s => s.text.getD "") = texts := by
  induction texts with
  | nil => rfl
  | cons t ts ih => simpa using ih

lemma visualContextOf_ne_empty (i s : String) : visualContextOf i s ≠ "" := by
  intro h
  have h2 := congrArg String.data h
  simp only [visualContextOf, String.data_append] at h2
  simp only [show ("" : String).data = [] from rfl,
    show ("[Visual Info: Found " : String).data
      = '[' :: ("Visual Info: Found " : String).data from rfl,
    List.cons_append] at h2
  exact List.cons_ne_nil _ _ h2

/-! ## Claim theorems -/

/-- C1.  The claim states that with the hemorrhage protocol active at
`step_1`, processing the reply "yes" returns `step_tourniquet`'s voice text,
sets `current_step_id` to `step_tourniquet` and grows `visited_step_ids` by
one.  The code does not do this: `process_input` runs in echo mode
(conversation_manager.py lines 102-104), contradicting its own docstring
("Search Protocol / Next Step -> Return Response").  Evaluated at the failing
input, the reply "yes" with the manager at `step_1` yields the echo response,
leaves `current_step_id` untouched, and never reads the tree — even though
the tree (from `get_placeholder_data`) does map `step_tourniquet` to the
claimed voice text. -/
theorem echo_mode_ignores_protocol_step :
    (processInput
      { history := [], activeProtocolId := some "hemorrhage",
        currentStepId := some "step_1", roomConnected := false,
        sourceActive := false }
      (some "yes") none (.ok []) (fun _ => none) (.ok ())).response
      = "I heard you say: yes"
    ∧ (processInput
      { history := [], activeProtocolId := some "hemorrhage",
        currentStepId := some "step_1", roomConnected := false,
        sourceActive := false }
      (some "yes") none (.ok []) (fun _ => none) (.ok ())).state.currentStepId
      = some "step_1"
    ∧ ((hemorrhageTree.lookup "step_tourniquet").map ProtoStep.voice)
      = some "Place tourniquet 2 to 3 inches above the wound. Tighten until bleeding stops."
    ∧ (processInput
      { history := [], activeProtocolId := some "hemorrhage",
        currentStepId := some "step_1", roomConnected := false,
        sourceActive := false }
      (some "yes") none (.ok []) (fun _ => none) (.ok ())).response
      ≠ "Place tourniquet 2 to 3 inches above the wound. Tighten until bleeding stops." := by
  refine ⟨rfl, rfl, rfl, ?_⟩
  decide

/-- C2.  For every manager state, every input whose combined text is
non-empty, and every behaviour of the vision collaborator, the TTS engine and
the publish call, `process_input` returns the verbatim echo acknowledgment of
the combined input; the embedding is a total function of those oracles, so no
failure of TTS, audio bridge or voice bridge can prevent the response. -/
theorem nonempty_input_echo_response (st : ManagerState) (userText : Option String)
    (imageBytes : Option (List Nat))
    (visionApi : Except String (List (String × String)))
    (tts : String → Option (List Nat)) (publishOutcome : Except String Unit)
    (h : combinedInput userText imageBytes visionApi ≠ "") :
    (processInput st userText imageBytes visionApi tts publishOutcome).response
      = "I heard you say: " ++ combinedInput userText imageBytes visionApi := by
  simp only [processInput, speakAndReturn]
  rw [if_neg h]

theorem nonempty_input_echo_response_witness :
    combinedInput (some "hello") none (.ok []) ≠ "" ∧
    (processInput
      { history := [], activeProtocolId := none, currentStepId := none,
        roomConnected := false, sourceActive := false }
      (some "hello") none (.ok []) (fun _ => none) (.ok ())).response
      = "I heard you say: hello" :=
  ⟨by decide,
   (nonempty_input_echo_response _ _ _ _ _ _ (by decide)).trans (by decide)⟩

/-- C3.  The claim states that on a failed vision call `analyze_injury`
returns the dictionary with keys `injury`, `severity`, `visual_overlay` and
overlay text "Analysis Failed".  The code's fallback (vision_processor.py
lines 76-80) instead uses the keys `injury_type` and `visual_overlay_text`
and the text "Analysis Failed - Check Connection" — contradicting the output
schema demanded by the prompt inside the very same function and the
`analysis.get("injury")` read in conversation_manager.py line 68.  Evaluated
at a failing call: the returned dictionary is the mismatched one, it has no
`injury` or `visual_overlay` entry, and it differs from the claimed
fallback. -/
theorem vision_fallback_divergence :
    analyzeInjury (.error "connection refused")
      = [("injury_type", "Unknown"), ("severity", "Unknown"),
         ("visual_overlay_text", "Analysis Failed - Check Connection")]
    ∧ pyDictGet (analyzeInjury (.error "connection refused")) "injury" "ABSENT"
      = "ABSENT"
    ∧ pyDictGet (analyzeInjury (.error "connection refused")) "visual_overlay" "ABSENT"
      = "ABSENT"
    ∧ analyzeInjury (.error "connection refused")
      ≠ [("injury", "Unknown"), ("severity", "Unknown"),
         ("visual_overlay", "Analysis Failed")] := by
  refine ⟨rfl, rfl, rfl, ?_⟩
  decide

/-- C4 counterexample.  A data-channel packet whose declared participant
identity matches the agent convention ("agent-" in the identity) is NOT
discarded: `_on_data_received` never inspects `data.participant`, so the
packet's text is normalized and handed to the callback. -/
theorem data_packet_agent_identity_not_filtered :
    pyContains "agent-savant" "agent-" = true ∧
    onDataReceived true (fun _ => none)
      ⟨"chat", some "agent-savant", some "hello"⟩ = some "hello" := by
  exact ⟨rfl, rfl⟩

/-- C4 amended.  Only legacy transcription events are identity-filtered: for
every legacy transcription event whose participant identity contains
"agent-", normalization yields no Utterance and no callback is invoked;
data-channel packets are processed regardless of the declared participant
identity. -/
theorem transcription_agent_identity_filtered (callbackSet : Bool)
    (pid : String) (tr : TranscriptPayload)
    (h : pyContains pid "agent-" = true) :
    onTranscriptionReceived callbackSet (some pid) tr = none := by
  simp [onTranscriptionReceived, agentFiltered, h]

theorem transcription_agent_identity_filtered_witness :
    pyContains "agent-EAX" "agent-" = true ∧
    onTranscriptionReceived true (some "agent-EAX")
      (.other "hello") = none :=
  ⟨by decide,
   transcription_agent_identity_filtered true "agent-EAX" (.other "hello") (by decide)⟩

/-- C5.  For every inbound event whose decoded text is empty or consists only
of whitespace, normalization produces no Utterance and invokes no callback:
this holds for the shared `_process_text_message` path, for data packets on
any topic (transcription or otherwise), and for legacy transcription events;
each path returns `none` silently rather than raising. -/
theorem whitespace_text_yields_no_utterance (t : String)
    (hs : ∀ c ∈ t.data, pyIsSpace c = true) :
    (∀ cs src, processTextMessage cs t src = none) ∧
    (∀ cs jget topic pident,
      onDataReceived cs jget ⟨topic, pident, some t⟩ = none) ∧
    (∀ cs p tr, transcriptionFullText tr = t →
      onTranscriptionReceived cs p tr = none) := by
  have hst : pyStrip t = "" := pyStrip_eq_empty_of_all_space t hs
  refine ⟨fun cs src => processTextMessage_none_of_strip_empty cs t src hst,
    fun cs jget topic pident => onDataReceived_none_of_all_space cs jget topic pident t hs,
    fun cs p tr htr => ?_⟩
  unfold onTranscriptionReceived
  by_cases hf : agentFiltered p
  · simp [hf]
  · simp [hf, htr, hst]

theorem whitespace_text_yields_no_utterance_witness :
    processTextMessage true " \t " "chat" = none ∧
    onDataReceived true (fun _ => none)
      ⟨"lk.transcription", some "user", some " \t "⟩ = none ∧
    onTranscriptionReceived true (some "user") (.other " \t ") = none :=
  ⟨(whitespace_text_yields_no_utterance " \t " (by decide)).1 true "chat",
   (whitespace_text_yields_no_utterance " \t " (by decide)).2.1 true
     (fun _ => none) "lk.transcription" (some "user"),
   (whitespace_text_yields_no_utterance " \t " (by decide)).2.2 true
     (some "user") (.other " \t ") rfl⟩

/-- C6.  For a legacy transcription event arriving as a sequence of segment
objects carrying texts `texts`, the joined string is exactly the
single-space join of those texts in their original order: it equals
`pyJoin " " texts`, and `pyJoin " "` concatenates head-first with a single
space before each subsequent element. -/
theorem segments_joined_in_order_single_space (texts : List String) :
    transcriptionFullText
      (.segments (texts.map (fun t => ({ text := some t } : TranscriptSegment))))
      = pyJoin " " texts
    ∧ ∀ (x : String) (xs : List String),
      pyJoin " " (x :: xs) = if xs = [] then x else x ++ " " ++ pyJoin " " xs := by
  constructor
  · simp only [transcriptionFullText, all_some_segments_texts]
  · intro x xs
    cases xs with
    | nil => rfl
    | cons y ys => rfl

/-- C7.  For every callback behaviour, an exception raised inside the
callback is caught by `_safe_callback_run` and returned as a logged message
rather than propagated; the consumption loop therefore still processes every
subsequent event (one outcome per event), whereas the unprotected contrast
semantics would terminate with the exception. -/
theorem callback_exception_isolated (cb : String → CallbackOutcome)
    (t e : String) (rest : List String) (h : cb t = .exn e) :
    safeCallbackRun cb t = some e ∧
    inboundConsumeLoop cb (t :: rest) = some e :: inboundConsumeLoop cb rest ∧
    (inboundConsumeLoop cb (t :: rest)).length = rest.length + 1 ∧
    unprotectedConsumeLoop cb (t :: rest) = .error e := by
  have h1 : safeCallbackRun cb t = some e := by simp [safeCallbackRun, h]
  refine ⟨h1, ?_, ?_, ?_⟩
  · simp [inboundConsumeLoop, h1]
  · simp [inboundConsumeLoop, inboundConsumeLoop_length]
  · simp [unprotectedConsumeLoop, h]

theorem callback_exception_isolated_witness :
    safeCallbackRun (fun _ => .exn "boom") "hi" = some "boom" ∧
    inboundConsumeLoop (fun _ => .exn "boom") ["hi", "next"]
      = some "boom" :: inboundConsumeLoop (fun _ => .exn "boom") ["next"] ∧
    (inboundConsumeLoop (fun _ => .exn "boom") ["hi", "next"]).length
      = ["next"].length + 1 ∧
    unprotectedConsumeLoop (fun _ => .exn "boom") ["hi", "next"]
      = .error "boom" :=
  callback_exception_isolated (fun _ => .exn "boom") "hi" "boom" ["next"] rfl

/-- C8.  When the API key is absent, starting the bridge reports the
missing-credential error (the `AuthError` of the spec's taxonomy), never
issues a connect call to the room service, surfaces no exception to the
caller, and still runs the cleanup path — for every behaviour of the HTTP
and connect collaborators. -/
theorem missing_api_key_no_connect (httpOutcome : Except String TokenData)
    (connectOutcome : Except String Unit) :
    (connectAndStream none httpOutcome connectOutcome).connectCalled = false ∧
    (connectAndStream none httpOutcome connectOutcome).logs
      = ["VOCAL_BRIDGE_KEY is missing."] ∧
    (connectAndStream none httpOutcome connectOutcome).surfacedError = none ∧
    (connectAndStream none httpOutcome connectOutcome).closedAtEnd = true :=
  ⟨rfl, rfl, rfl, rfl⟩

/-- C9 counterexample.  With credentials present and the token fetch failing,
`connect_and_stream` makes exactly one fetch attempt, surfaces no
`SessionUnavailable` (or any error) to the caller, and never connects; and
after a successful connection the run performs zero reconnection attempts —
contradicting the claimed bounded retry, surfaced fatal error, and
reconnection on drop. -/
theorem token_failure_single_attempt_no_reconnect_cex :
    (connectAndStream (some "key") (.error "HTTP 500") (.ok ())).tokenFetchAttempts
      = 1 ∧
    (connectAndStream (some "key") (.error "HTTP 500") (.ok ())).surfacedError
      = none ∧
    (connectAndStream (some "key") (.error "HTTP 500") (.ok ())).connectCalled
      = false ∧
    (connectAndStream (some "key")
      (.ok { livekitUrl := "wss://x", token := "tok", roomName := "room" })
      (.ok ())).reconnectAttempts = 0 :=
  ⟨rfl, rfl, rfl, rfl⟩

/-- C9 amended.  A failed token fetch (with credentials present) is attempted
exactly once, logged, and abandoned: no retry, no backoff, no error surfaced
to the caller, and the session never connects.  No execution of
`connect_and_stream` ever attempts a reconnection, and `reconnect` itself is
a no-op. -/
theorem token_failure_and_drop_behavior (key e : String)
    (connectOutcome : Except String Unit) :
    (connectAndStream (some key) (.error e) connectOutcome).tokenFetchAttempts
      = 1 ∧
    (connectAndStream (some key) (.error e) connectOutcome).connectCalled
      = false ∧
    (connectAndStream (some key) (.error e) connectOutcome).logs
      = ["Failed to get token: " ++ e] ∧
    (connectAndStream (some key) (.error e) connectOutcome).surfacedError
      = none ∧
    (∀ a h c, (connectAndStream a h c).reconnectAttempts = 0) ∧
    reconnect = () := by
  refine ⟨rfl, rfl, rfl, rfl, ?_, rfl⟩
  intro a h c
  cases a with
  | none => rfl
  | some k =>
    cases h with
    | error e2 => rfl
    | ok td =>
      cases c with
      | error e3 => rfl
      | ok u => rfl

/-- C10.  For every turn in which an image is supplied (non-empty bytes) and
analyzed, exactly one record is sent to the logging collaborator — carrying
the finding's injury in `injury_detected` and its severity inside
`actions_taken` — and the combined input text equals the utterance text
extended with the bracketed visual-context suffix naming that injury and
severity. -/
theorem visual_finding_logged_once_and_suffixed (st : ManagerState)
    (userText : Option String) (b : Nat) (bs : List Nat)
    (visionApi : Except String (List (String × String)))
    (tts : String → Option (List Nat)) (publishOutcome : Except String Unit) :
    (processInput st userText (some (b :: bs)) visionApi tts publishOutcome).dbRecords
      = [{ heartRate := "--",
           injuryDetected := pyDictGet (analyzeInjury visionApi) "injury" "Unknown",
           actionsTaken := "Visual Analysis: "
             ++ pyDictGet (analyzeInjury visionApi) "severity" "Unknown" }] ∧
    combinedInput userText (some (b :: bs)) visionApi
      = userText.getD "" ++ " "
        ++ visualContextOf
            (pyDictGet (analyzeInjury visionApi) "injury" "Unknown")
            (pyDictGet (analyzeInjury visionApi) "severity" "Unknown") := by
  have himg : imgTruthy (some (b :: bs)) = true := rfl
  have hvc : visualContextFor (some (b :: bs)) visionApi
      = visualContextOf
          (pyDictGet (analyzeInjury visionApi) "injury" "Unknown")
          (pyDictGet (analyzeInjury visionApi) "severity" "Unknown") := by
    simp [visualContextFor, himg]
  constructor
  · simp only [processInput]
    split <;> simp [dbRecordsFor, himg]
  · simp only [combinedInput, hvc]
    rw [if_pos (visualContextOf_ne_empty _ _)]

end Savant
